import Mathlib

/-!
Verification of the `snowid` TSID (Time-Sorted Unique Identifier) generator
(`src/lib.rs` of qeeqez/snowid).

Shallow embedding conventions:
* Rust machine integers are modelled as `Nat`.  `u64`/`u16` wrap-around is made
  explicit with `% 18446744073709551616` (2^64) and `% 65536` (2^16) exactly
  where the Rust semantics wraps (atomic `fetch_add` always wraps; `<<` on u64
  discards high result bits).
* Arithmetic whose overflow is a Rust program error (checked in the profile the
  crate's own test-suite runs under) is modelled as fallible: `u64`
  subtraction underflow in `current_time` and a `<<` whose shift amount
  reaches the width of the `u16` operand in `create_bit_config` return `none`
  (the panic).  `assert!` failures are likewise `none`.
* The generator's two atomics (`last_timestamp`, `sequence`) become an explicit
  `GenState` record; `generate` becomes a function of the sequence of
  wall-clock readings observed by its successive loop iterations (the Rust
  loop re-reads the clock every iteration).  In a sequential execution the
  `compare_exchange` on `last_timestamp` cannot fail, so the successful-CAS
  branch is taken whenever `timestamp > last`.
* For the `Clone` implementation a small store model is used: the two atomics
  of a generator are cells of a heap `Store`, `clone` allocates fresh cells
  seeded with loads of the originals, and `generate` writes back only the
  generator's own two cells (the Rust `generate` touches no other state).
-/

namespace Snowid

/-- Fixed timestamp bits (`TIMESTAMP_BITS` in the source). -/
def TIMESTAMP_BITS : Nat := 42

/-- Fixed total for node + sequence bits (`TOTAL_NODE_AND_SEQUENCE_BITS`). -/
def TOTAL_NODE_AND_SEQUENCE_BITS : Nat := 22

/-- Default node bits (`DEFAULT_NODE_BITS`). -/
def DEFAULT_NODE_BITS : Nat := 10

/-- Default custom epoch, milliseconds of 2024-01-01T00:00:00Z
(`DEFAULT_CUSTOM_EPOCH`). -/
def DEFAULT_CUSTOM_EPOCH : Nat := 1704067200000

/-- Configuration for the TSID generator (struct `TsidConfig`); all three
fields are private in the source and set only by `Default::default` and the
builder, which maintain `node_bits + sequence_bits = 22`. -/
structure TsidConfig where
  node_bits : Nat
  sequence_bits : Nat
  custom_epoch : Nat
deriving DecidableEq

/-- `impl Default for TsidConfig`. -/
def TsidConfig.default : TsidConfig :=
  { node_bits := DEFAULT_NODE_BITS
    sequence_bits := TOTAL_NODE_AND_SEQUENCE_BITS - DEFAULT_NODE_BITS
    custom_epoch := DEFAULT_CUSTOM_EPOCH }

namespace TsidConfigBuilder

/-- `TsidConfigBuilder::node_bits`.  The builder state is just the wrapped
`TsidConfig`.  `assert!(bits > 0 && bits <= 20)` panics (`none`) outside 1-20;
otherwise node bits are set and sequence bits become `22 - bits`. -/
def node_bits (c : TsidConfig) (bits : Nat) : Option TsidConfig :=
  if 0 < bits ∧ bits ≤ 20 then
    some { c with node_bits := bits
                  sequence_bits := TOTAL_NODE_AND_SEQUENCE_BITS - bits }
  else none

/-- `TsidConfigBuilder::custom_epoch`. -/
def custom_epoch (c : TsidConfig) (epoch : Nat) : TsidConfig :=
  { c with custom_epoch := epoch }

end TsidConfigBuilder

/-- Internal bit configuration (struct `BitConfig`).  In the source the masks
`sequence_mask`, `node_mask`, `max_sequence`, `max_node` are `u16` and the
shifts are `u8`; the `u16` width is what makes `create_bit_config` fallible. -/
structure BitConfig where
  node_shift : Nat
  timestamp_shift : Nat
  sequence_mask : Nat
  node_mask : Nat
  timestamp_mask : Nat
  max_sequence : Nat
  max_node : Nat
deriving DecidableEq

/-- `TsidConfig::create_bit_config`.  The source computes
`(1u16 << sequence_bits) - 1` and `(1u16 << node_bits) - 1`: a shift amount of
16 or more overflows the `u16` shift, which is a Rust program error (panic
under the overflow-checked profile the crate's tests run under), modelled as
`none`.  For shift amounts below 16 the results fit in `u16` exactly. -/
def TsidConfig.create_bit_config (c : TsidConfig) : Option BitConfig :=
  if c.sequence_bits < 16 ∧ c.node_bits < 16 then
    let node_shift := c.sequence_bits
    let timestamp_shift := c.node_bits + c.sequence_bits
    let sequence_mask := (1 <<< c.sequence_bits) - 1
    let node_mask := (1 <<< c.node_bits) - 1
    let timestamp_mask := (1 <<< TIMESTAMP_BITS) - 1
    some { node_shift := node_shift
           timestamp_shift := timestamp_shift
           sequence_mask := sequence_mask
           node_mask := node_mask
           timestamp_mask := timestamp_mask
           max_sequence := sequence_mask
           max_node := node_mask }
  else none

/-- Immutable part of a `TsidGenerator`: `node_id` (`u16`), the configuration
and the derived bit configuration.  The mutable atomics are the separate
`GenState`. -/
structure TsidGenerator where
  node_id : Nat
  config : TsidConfig
  bit_config : BitConfig
deriving DecidableEq

/-- The generator's mutable shared state: the two atomics `last_timestamp`
(`AtomicU64`) and `sequence` (`AtomicU16`). -/
structure GenState where
  last_timestamp : Nat
  sequence : Nat
deriving DecidableEq

/-- `TsidGenerator::with_config`: derives the bit configuration (which may
panic, see `TsidConfig.create_bit_config`) and then
`assert!(node_id <= bit_config.max_node)` (panic modelled as `none`).
The fresh atomics start at 0, giving initial state `⟨0, 0⟩`. -/
def TsidGenerator.with_config (node_id : Nat) (config : TsidConfig) :
    Option TsidGenerator :=
  match config.create_bit_config with
  | none => none
  | some bit_config =>
    if node_id ≤ bit_config.max_node then
      some { node_id := node_id, config := config, bit_config := bit_config }
    else none

/-- `TsidGenerator::new`: default configuration. -/
def TsidGenerator.new (node_id : Nat) : Option TsidGenerator :=
  TsidGenerator.with_config node_id TsidConfig.default

/-- Initial generator state (`sequence: AtomicU16::new(0)`,
`last_timestamp: AtomicU64::new(0)`). -/
def initialState : GenState := { last_timestamp := 0, sequence := 0 }

/-- `TsidGenerator::create_tsid`.  All operands are `u64`; the left shifts
on u64 discard high result bits silently (no overflow check applies to the
shifted-out value as long as the shift amount is below 64, which holds for
every derivable layout), hence the explicit `% 2^64`. -/
def TsidGenerator.create_tsid (g : TsidGenerator) (timestamp : Nat)
    (sequence : Nat) : Nat :=
  (((timestamp &&& g.bit_config.timestamp_mask) <<< g.bit_config.timestamp_shift)
      % 18446744073709551616) |||
  (((g.node_id &&& g.bit_config.node_mask) <<< g.bit_config.node_shift)
      % 18446744073709551616) |||
  (sequence &&& g.bit_config.sequence_mask)

/-- `TsidGenerator::current_time`: wall-clock milliseconds since the Unix
epoch, truncated to `u64` (`as_millis() as u64`), minus `custom_epoch`.
The `u64` subtraction underflows when the clock reads earlier than the custom
epoch; that overflow is a Rust program error (panic under the checked profile),
modelled as `none`. -/
def current_time (c : TsidConfig) (now : Nat) : Option Nat :=
  let ms := now % 18446744073709551616
  if ms < c.custom_epoch then none else some (ms - c.custom_epoch)

/-- Result of one `generate()` call in the sequential model. -/
inductive GenResult where
  | ok : Nat → GenState → GenResult
  | panicked : GenResult
  | spinning : GenState → GenResult
deriving DecidableEq

/-- The retry loop of `TsidGenerator::generate`, sequential semantics: one
wall-clock reading is consumed per loop iteration (the source re-reads the
clock each iteration), and the `compare_exchange` on `last_timestamp` always
succeeds because no other thread interferes.  `fetch_add` on the `u16`
sequence atomic wraps modulo 2^16 and returns the pre-increment value.
Running out of supplied readings yields `.spinning` (the loop is still
going). -/
def generateAux (g : TsidGenerator) (readings : List Nat) (s : GenState) :
    GenResult :=
  match readings with
  | [] => .spinning s
  | now :: rest =>
    match current_time g.config now with
    | none => .panicked
    | some timestamp =>
      if s.last_timestamp < timestamp then
        .ok (g.create_tsid timestamp 0) { last_timestamp := timestamp, sequence := 0 }
      else
        let current_ts :=
          if timestamp < s.last_timestamp then s.last_timestamp else timestamp
        if s.sequence < g.bit_config.max_sequence then
          .ok (g.create_tsid current_ts (s.sequence + 1))
             { last_timestamp := s.last_timestamp, sequence := (s.sequence + 1) % 65536 }
        else
          generateAux g rest
            { last_timestamp := s.last_timestamp, sequence := (s.sequence + 1) % 65536 }

/-- One `generate()` call whose every loop iteration observes the same
wall-clock reading `now` (65537 readings are always enough for the loop to
finish, see `generateAux_returns`). -/
def callWith (g : TsidGenerator) (now : Nat) (s : GenState) : GenResult :=
  generateAux g (List.replicate 65537 now) s

/-- `TsidGenerator::extract_timestamp`. -/
def TsidGenerator.extract_timestamp (g : TsidGenerator) (tsid : Nat) : Nat :=
  (tsid >>> g.bit_config.timestamp_shift) &&& g.bit_config.timestamp_mask

/-- `TsidGenerator::extract_node` (the final `as u16` cast is the
`% 65536`). -/
def TsidGenerator.extract_node (g : TsidGenerator) (tsid : Nat) : Nat :=
  ((tsid >>> g.bit_config.node_shift) &&& g.bit_config.node_mask) % 65536

/-- `TsidGenerator::extract_sequence` (the final `as u16` cast is the
`% 65536`). -/
def TsidGenerator.extract_sequence (g : TsidGenerator) (tsid : Nat) : Nat :=
  (tsid &&& g.bit_config.sequence_mask) % 65536

/-- `TsidGenerator::extract_from_tsid`. -/
def TsidGenerator.extract_from_tsid (g : TsidGenerator) (tsid : Nat) :
    Nat × Nat × Nat :=
  (g.extract_timestamp tsid, g.extract_node tsid, g.extract_sequence tsid)

/-- `TsidGenerator::max_node_id`. -/
def TsidGenerator.max_node_id (g : TsidGenerator) : Nat :=
  g.bit_config.max_node

/-- `TsidGenerator::max_sequence`. -/
def TsidGenerator.max_sequence (g : TsidGenerator) : Nat :=
  g.bit_config.max_sequence

/-! ### Store model for `impl Clone for TsidGenerator`

The two atomics of a generator live in heap cells; `clone` allocates fresh
cells initialised with `Relaxed` loads of the original's cells.  `generate`
reads the generator's two cells, runs the loop, and writes the resulting
state back to those same two cells — the source's `generate` touches no other
state. -/

/-- A heap of atomic cells, indexed by cell id. -/
abbrev Store := Nat → Nat

/-- A generator whose atomics are the cells `seqCell` (the `AtomicU16`
`sequence`) and `lastCell` (the `AtomicU64` `last_timestamp`). -/
structure GenRef where
  node_id : Nat
  seqCell : Nat
  lastCell : Nat
  config : TsidConfig
  bit_config : BitConfig

/-- Forget the cell ids. -/
def GenRef.toGen (g : GenRef) : TsidGenerator :=
  { node_id := g.node_id, config := g.config, bit_config := g.bit_config }

/-- Load the generator's state from the store. -/
def readState (st : Store) (g : GenRef) : GenState :=
  { last_timestamp := st g.lastCell, sequence := st g.seqCell }

/-- Write the generator's state back to its own two cells. -/
def writeState (st : Store) (g : GenRef) (s : GenState) : Store :=
  fun c =>
    if c = g.lastCell then s.last_timestamp
    else if c = g.seqCell then s.sequence
    else st c

/-- `impl Clone for TsidGenerator`: same `node_id`, `config` and `bit_config`;
`sequence` and `last_timestamp` are NEW atomics (cells `fresh` and
`fresh + 1`) initialised with loads of the original's current values. -/
def cloneGen (g : GenRef) (fresh : Nat) : GenRef :=
  { node_id := g.node_id, seqCell := fresh, lastCell := fresh + 1,
    config := g.config, bit_config := g.bit_config }

/-- The store after cloning: the two fresh cells hold the loaded values,
everything else is untouched. -/
def cloneStore (st : Store) (g : GenRef) (fresh : Nat) : Store :=
  fun c =>
    if c = fresh then st g.seqCell
    else if c = fresh + 1 then st g.lastCell
    else st c

/-- The store after one `generate()` call on `g` under the readings trace:
whatever state the loop ends in is written back to `g`'s own cells (a call
that panics aborts the process; its partial effects are unobservable and the
store is returned unchanged). -/
def storeAfter (st : Store) (g : GenRef) (readings : List Nat) : Store :=
  match generateAux g.toGen readings (readState st g) with
  | .ok _ s => writeState st g s
  | .spinning s => writeState st g s
  | .panicked => st

/-! ### Concrete instances used by the scenarios -/

/-- The default configuration: 10 node bits, 12 sequence bits. -/
def cfgD : TsidConfig := TsidConfig.default

/-- The bit configuration derived from the default configuration. -/
def bcD : BitConfig :=
  { node_shift := 12, timestamp_shift := 22, sequence_mask := 4095,
    node_mask := 1023, timestamp_mask := 4398046511103,
    max_sequence := 4095, max_node := 1023 }

/-- A generator with node id 1 under the default configuration (the value of
`TsidGenerator::new(1)`). -/
def genD : TsidGenerator :=
  { node_id := 1, config := cfgD, bit_config := bcD }

/-- The wall-clock reading used in the frozen-clock scenario: one millisecond
after the default custom epoch, so every call observes `timestamp = 1`. -/
def frozenNow : Nat := DEFAULT_CUSTOM_EPOCH + 1

/-- One sequential `generate()` call on `genD` with the clock frozen at
`frozenNow`. -/
def traceStep (s : GenState) : Option (Nat × GenState) :=
  match callWith genD frozenNow s with
  | .ok t s' => some (t, s')
  | _ => none

/-- The generator state after `n` sequential `generate()` calls on a freshly
constructed `genD` with the clock frozen at `frozenNow`. -/
def stateAfter : Nat → Option GenState
  | 0 => some initialState
  | n + 1 => (stateAfter n).bind fun s => (traceStep s).map Prod.snd

/-- The identifier returned by the `n`-th (1-based) of those calls. -/
def tsidOf : Nat → Option Nat
  | 0 => none
  | n + 1 => (stateAfter n).bind fun s => (traceStep s).map Prod.fst

/-- A concrete store for the clone scenario. -/
def st0 : Store := fun c => c + 100

/-- A concrete generator reference (node id 1, default layout) whose atomics
live in cells 0 and 1. -/
def gR0 : GenRef :=
  { node_id := 1, seqCell := 0, lastCell := 1, config := cfgD, bit_config := bcD }

/-! ### Inversion lemmas -/

lemma create_bit_config_inv {c : TsidConfig} {bc : BitConfig}
    (h : c.create_bit_config = some bc) :
    c.sequence_bits < 16 ∧ c.node_bits < 16 ∧
    bc.node_shift = c.sequence_bits ∧
    bc.timestamp_shift = c.node_bits + c.sequence_bits ∧
    bc.sequence_mask = 2 ^ c.sequence_bits - 1 ∧
    bc.node_mask = 2 ^ c.node_bits - 1 ∧
    bc.timestamp_mask = 2 ^ 42 - 1 ∧
    bc.max_sequence = 2 ^ c.sequence_bits - 1 ∧
    bc.max_node = 2 ^ c.node_bits - 1 := by
  rw [TsidConfig.create_bit_config] at h
  by_cases hc : c.sequence_bits < 16 ∧ c.node_bits < 16
  · rw [if_pos hc] at h
    obtain rfl := Option.some.inj h
    refine ⟨hc.1, hc.2, rfl, rfl, ?_, ?_, ?_, ?_, ?_⟩ <;>
      simp [Nat.shiftLeft_eq, TIMESTAMP_BITS]
  · rw [if_neg hc] at h
    simp at h

lemma with_config_inv {node_id : Nat} {c : TsidConfig} {g : TsidGenerator}
    (h : TsidGenerator.with_config node_id c = some g) :
    g.node_id = node_id ∧ g.config = c ∧
    c.create_bit_config = some g.bit_config ∧
    node_id ≤ g.bit_config.max_node := by
  rw [TsidGenerator.with_config] at h
  split at h
  · simp at h
  · rename_i bc hbc
    split at h
    · rename_i hn
      obtain rfl := Option.some.inj h
      exact ⟨rfl, rfl, hbc, hn⟩
    · simp at h

lemma builder_node_bits_inv {c cfg : TsidConfig} {bits : Nat}
    (h : TsidConfigBuilder.node_bits c bits = some cfg) :
    0 < bits ∧ bits ≤ 20 ∧ cfg.node_bits = bits ∧
    cfg.sequence_bits = 22 - bits ∧ cfg.custom_epoch = c.custom_epoch := by
  rw [TsidConfigBuilder.node_bits] at h
  by_cases hb : 0 < bits ∧ bits ≤ 20
  · rw [if_pos hb] at h
    obtain rfl := Option.some.inj h
    exact ⟨hb.1, hb.2, rfl, rfl, rfl⟩
  · rw [if_neg hb] at h
    simp at h

/-- Any builder-made configuration whose bit layout derives successfully has a
positive `max_sequence` (sequence bits are at least 2). -/
lemma builder_max_sequence_pos {c cfg : TsidConfig} {bits : Nat} {bc : BitConfig}
    (hb : TsidConfigBuilder.node_bits c bits = some cfg)
    (hbc : cfg.create_bit_config = some bc) :
    1 ≤ bc.max_sequence := by
  obtain ⟨h1, h2, _, hsb, _⟩ := builder_node_bits_inv hb
  obtain ⟨_, _, _, _, _, _, _, hms, _⟩ := create_bit_config_inv hbc
  rw [hms, hsb]
  have h4 : (2 : Nat) ^ 2 ≤ 2 ^ (22 - bits) :=
    Nat.pow_le_pow_right (by norm_num) (by omega)
  omega

/-! ### Branch lemmas for one iteration of the `generate` loop -/

lemma current_time_eq_none {c : TsidConfig} {now : Nat}
    (h : now % 18446744073709551616 < c.custom_epoch) :
    current_time c now = none := by
  simp [current_time, h]

lemma current_time_eq_some {c : TsidConfig} {now : Nat}
    (h : c.custom_epoch ≤ now % 18446744073709551616) :
    current_time c now = some (now % 18446744073709551616 - c.custom_epoch) := by
  simp [current_time, Nat.not_lt.mpr h]

lemma generateAux_panic (g : TsidGenerator) (now : Nat) (rest : List Nat)
    (s : GenState) (h : now % 18446744073709551616 < g.config.custom_epoch) :
    generateAux g (now :: rest) s = .panicked := by
  simp [generateAux, current_time_eq_none h]

lemma generateAux_tick (g : TsidGenerator) (now : Nat) (rest : List Nat)
    (s : GenState)
    (he : g.config.custom_epoch ≤ now % 18446744073709551616)
    (ht : s.last_timestamp < now % 18446744073709551616 - g.config.custom_epoch) :
    generateAux g (now :: rest) s =
      .ok (g.create_tsid (now % 18446744073709551616 - g.config.custom_epoch) 0)
        { last_timestamp := now % 18446744073709551616 - g.config.custom_epoch
          sequence := 0 } := by
  simp [generateAux, current_time_eq_some he, ht]

lemma generateAux_seq (g : TsidGenerator) (now : Nat) (rest : List Nat)
    (s : GenState)
    (he : g.config.custom_epoch ≤ now % 18446744073709551616)
    (ht : now % 18446744073709551616 - g.config.custom_epoch ≤ s.last_timestamp)
    (hs : s.sequence < g.bit_config.max_sequence) :
    generateAux g (now :: rest) s =
      .ok (g.create_tsid s.last_timestamp (s.sequence + 1))
        { last_timestamp := s.last_timestamp
          sequence := (s.sequence + 1) % 65536 } := by
  have h1 : ¬ s.last_timestamp < now % 18446744073709551616 - g.config.custom_epoch :=
    Nat.not_lt.mpr ht
  rcases Nat.lt_or_ge (now % 18446744073709551616 - g.config.custom_epoch)
      s.last_timestamp with h2 | h2
  · simp [generateAux, current_time_eq_some he, h1, h2, hs]
  · have h3 : now % 18446744073709551616 - g.config.custom_epoch = s.last_timestamp :=
      Nat.le_antisymm ht h2
    simp [generateAux, current_time_eq_some he, h1, h3, hs]

lemma generateAux_exhausted (g : TsidGenerator) (now : Nat) (rest : List Nat)
    (s : GenState)
    (he : g.config.custom_epoch ≤ now % 18446744073709551616)
    (ht : now % 18446744073709551616 - g.config.custom_epoch ≤ s.last_timestamp)
    (hs : g.bit_config.max_sequence ≤ s.sequence) :
    generateAux g (now :: rest) s =
      generateAux g rest
        { last_timestamp := s.last_timestamp
          sequence := (s.sequence + 1) % 65536 } := by
  simp [generateAux, current_time_eq_some he, Nat.not_lt.mpr ht, Nat.not_lt.mpr hs]

/-! ### Sequence-space exhaustion: the `u16` counter wraps and the loop
returns an identifier with a wrapped (hence reused) sequence number. -/

lemma generateAux_spin (g : TsidGenerator) (now : Nat)
    (hm : 1 ≤ g.bit_config.max_sequence)
    (he : g.config.custom_epoch ≤ now % 18446744073709551616) :
    ∀ (k n : Nat) (s : GenState),
      s.sequence + k = 65536 → s.sequence ≤ 65535 →
      g.bit_config.max_sequence ≤ s.sequence →
      now % 18446744073709551616 - g.config.custom_epoch ≤ s.last_timestamp →
      k + 1 ≤ n →
      generateAux g (List.replicate n now) s =
        .ok (g.create_tsid s.last_timestamp 1)
          { last_timestamp := s.last_timestamp, sequence := 1 } := by
  intro k
  induction k with
  | zero => intro n s h1 h2 h3 h4 h5; omega
  | succ k ih =>
    intro n s h1 h2 h3 h4 h5
    obtain ⟨m, rfl⟩ : ∃ m, n = m + 1 := ⟨n - 1, by omega⟩
    rw [List.replicate_succ,
      generateAux_exhausted g now (List.replicate m now) s he h4 h3]
    by_cases hk : s.sequence = 65535
    · have e0 : (s.sequence + 1) % 65536 = 0 := by omega
      rw [e0]
      have hk0 : k = 0 := by omega
      obtain ⟨m', rfl⟩ : ∃ m', m = m' + 1 := ⟨m - 1, by omega⟩
      rw [List.replicate_succ]
      have := generateAux_seq g now (List.replicate m' now)
        { last_timestamp := s.last_timestamp, sequence := 0 } he (by simpa using h4)
        (by simpa using hm)
      simpa using this
    · have e1 : (s.sequence + 1) % 65536 = s.sequence + 1 := by omega
      rw [e1]
      exact ih m { last_timestamp := s.last_timestamp, sequence := s.sequence + 1 }
        (by simpa using by omega) (by simpa using by omega) (by simpa using by omega)
        (by simpa using h4) (by omega)

/-! ### Termination of the `generate` loop -/

lemma generateAux_returns (g : TsidGenerator)
    (hm : 1 ≤ g.bit_config.max_sequence) :
    ∀ (readings : List Nat) (s : GenState),
      (∀ r ∈ readings, g.config.custom_epoch ≤ r % 18446744073709551616) →
      s.sequence ≤ 65535 →
      (if s.sequence < g.bit_config.max_sequence then 1
        else 65537 - s.sequence) ≤ readings.length →
      ∃ t s', generateAux g readings s = .ok t s' := by
  intro readings
  induction readings with
  | nil =>
    intro s hr hs hlen
    rcases Nat.lt_or_ge s.sequence g.bit_config.max_sequence with h | h
    · rw [if_pos h] at hlen; simp at hlen
    · rw [if_neg (Nat.not_lt.mpr h)] at hlen; simp at hlen; omega
  | cons now rest ih =>
    intro s hr hs hlen
    have he : g.config.custom_epoch ≤ now % 18446744073709551616 :=
      hr now (by simp)
    rcases Nat.lt_or_ge s.last_timestamp
        (now % 18446744073709551616 - g.config.custom_epoch) with h1 | h1
    · exact ⟨_, _, generateAux_tick g now rest s he h1⟩
    · rcases Nat.lt_or_ge s.sequence g.bit_config.max_sequence with h2 | h2
      · exact ⟨_, _, generateAux_seq g now rest s he h1 h2⟩
      · rw [generateAux_exhausted g now rest s he h1 h2]
        have hlen' : 65537 - s.sequence ≤ rest.length + 1 := by
          rw [if_neg (Nat.not_lt.mpr h2)] at hlen
          simpa using hlen
        refine ih { last_timestamp := s.last_timestamp
                    sequence := (s.sequence + 1) % 65536 }
          (fun r hr' => hr r (List.mem_cons_of_mem _ hr')) (by simp; omega) ?_
        show (if (s.sequence + 1) % 65536 < g.bit_config.max_sequence then 1
          else 65537 - (s.sequence + 1) % 65536) ≤ rest.length
        by_cases hnew : (s.sequence + 1) % 65536 < g.bit_config.max_sequence
        · rw [if_pos hnew]; omega
        · rw [if_neg hnew]; omega

/-! ### Arithmetic characterisation of packing and extraction -/

lemma lor_eq_add {k a b : Nat} (ha : ∃ x, a = 2 ^ k * x) (hb : b < 2 ^ k) :
    a ||| b = a + b := by
  obtain ⟨x, rfl⟩ := ha
  rw [← Nat.mul_add_lt_is_or hb x]

/-- The packed identifier, arithmetically: for a derivable layout with
`node_bits + sequence_bits = 22` and a timestamp below 2^42 there is no
truncation and the three fields occupy disjoint bit ranges. -/
lemma create_tsid_eval (g : TsidGenerator)
    (hbc : g.config.create_bit_config = some g.bit_config)
    (h22 : g.config.node_bits + g.config.sequence_bits = 22)
    (ts seqv : Nat) (hts : ts < 2 ^ 42) :
    g.create_tsid ts seqv =
      2 ^ g.config.sequence_bits *
          (ts * 2 ^ g.config.node_bits + g.node_id % 2 ^ g.config.node_bits) +
        seqv % 2 ^ g.config.sequence_bits := by
  obtain ⟨hsb, hnb, e1, e2, e3, e4, e5, _, _⟩ := create_bit_config_inv hbc
  set nb := g.config.node_bits with hnbdef
  set sb := g.config.sequence_bits with hsbdef
  have hnpos : 0 < 2 ^ nb := Nat.pos_pow_of_pos _ (by norm_num)
  have hspos : 0 < 2 ^ sb := Nat.pos_pow_of_pos _ (by norm_num)
  have hnv : g.node_id % 2 ^ nb < 2 ^ nb := Nat.mod_lt _ hnpos
  have hsv : seqv % 2 ^ sb < 2 ^ sb := Nat.mod_lt _ hspos
  have hpow22 : (2 : Nat) ^ nb * 2 ^ sb = 2 ^ 22 := by
    rw [← pow_add, h22]
  have hpow22' : (2 : Nat) ^ sb * 2 ^ nb = 2 ^ 22 := by
    rw [← pow_add, Nat.add_comm sb nb, h22]
  rw [TsidGenerator.create_tsid, e1, e2, e3, e4, e5, h22]
  rw [Nat.and_pow_two_sub_one_eq_mod, Nat.and_pow_two_sub_one_eq_mod,
    Nat.and_pow_two_sub_one_eq_mod, Nat.mod_eq_of_lt hts,
    Nat.shiftLeft_eq, Nat.shiftLeft_eq]
  have m1 : ts * 2 ^ 22 % 18446744073709551616 = ts * 2 ^ 22 := by
    apply Nat.mod_eq_of_lt
    calc ts * 2 ^ 22 < 2 ^ 42 * 2 ^ 22 :=
          (Nat.mul_lt_mul_right (by norm_num)).mpr hts
      _ = 18446744073709551616 := by norm_num
  have hBlt : g.node_id % 2 ^ nb * 2 ^ sb < 2 ^ 22 := by
    calc g.node_id % 2 ^ nb * 2 ^ sb < 2 ^ nb * 2 ^ sb :=
          (Nat.mul_lt_mul_right hspos).mpr hnv
      _ = 2 ^ 22 := hpow22
  have m2 : g.node_id % 2 ^ nb * 2 ^ sb % 18446744073709551616 =
      g.node_id % 2 ^ nb * 2 ^ sb := by
    apply Nat.mod_eq_of_lt
    calc g.node_id % 2 ^ nb * 2 ^ sb < 2 ^ 22 := hBlt
      _ < 18446744073709551616 := by norm_num
  rw [m1, m2]
  rw [lor_eq_add ⟨ts, by ring⟩ hBlt]
  rw [lor_eq_add ⟨ts * 2 ^ nb + g.node_id % 2 ^ nb, by
    rw [Nat.mul_add, ← hpow22']; ring⟩ hsv]
  rw [Nat.mul_add, ← hpow22']
  ring

lemma extract_timestamp_create (g : TsidGenerator)
    (hbc : g.config.create_bit_config = some g.bit_config)
    (h22 : g.config.node_bits + g.config.sequence_bits = 22)
    (ts seqv : Nat) (hts : ts < 2 ^ 42) :
    g.extract_timestamp (g.create_tsid ts seqv) = ts := by
  obtain ⟨hsb, hnb, e1, e2, e3, e4, e5, _, _⟩ := create_bit_config_inv hbc
  rw [create_tsid_eval g hbc h22 ts seqv hts]
  rw [TsidGenerator.extract_timestamp, e2, e5, h22]
  rw [Nat.shiftRight_eq_div_pow, Nat.and_pow_two_sub_one_eq_mod]
  set nb := g.config.node_bits
  set sb := g.config.sequence_bits
  have hnpos : 0 < 2 ^ nb := Nat.pos_pow_of_pos _ (by norm_num)
  have hspos : 0 < 2 ^ sb := Nat.pos_pow_of_pos _ (by norm_num)
  have hnv : g.node_id % 2 ^ nb < 2 ^ nb := Nat.mod_lt _ hnpos
  have hsv : seqv % 2 ^ sb < 2 ^ sb := Nat.mod_lt _ hspos
  have hpow22' : (2 : Nat) ^ sb * 2 ^ nb = 2 ^ 22 := by
    rw [← pow_add, Nat.add_comm sb nb, h22]
  have hre : 2 ^ sb * (ts * 2 ^ nb + g.node_id % 2 ^ nb) + seqv % 2 ^ sb =
      2 ^ 22 * ts + (2 ^ sb * (g.node_id % 2 ^ nb) + seqv % 2 ^ sb) := by
    calc 2 ^ sb * (ts * 2 ^ nb + g.node_id % 2 ^ nb) + seqv % 2 ^ sb
        = 2 ^ sb * 2 ^ nb * ts + (2 ^ sb * (g.node_id % 2 ^ nb) + seqv % 2 ^ sb) := by
          ring
      _ = 2 ^ 22 * ts + (2 ^ sb * (g.node_id % 2 ^ nb) + seqv % 2 ^ sb) := by
          rw [hpow22']
  have hlow : 2 ^ sb * (g.node_id % 2 ^ nb) + seqv % 2 ^ sb < 2 ^ 22 := by
    calc 2 ^ sb * (g.node_id % 2 ^ nb) + seqv % 2 ^ sb
        < 2 ^ sb * (g.node_id % 2 ^ nb) + 2 ^ sb := by omega
      _ = 2 ^ sb * (g.node_id % 2 ^ nb + 1) := by ring
      _ ≤ 2 ^ sb * 2 ^ nb := Nat.mul_le_mul_left _ (by omega)
      _ = 2 ^ 22 := hpow22'
  rw [hre, Nat.mul_add_div (by norm_num), Nat.div_eq_of_lt hlow,
    Nat.add_zero, Nat.mod_eq_of_lt hts]

lemma extract_node_create (g : TsidGenerator)
    (hbc : g.config.create_bit_config = some g.bit_config)
    (h22 : g.config.node_bits + g.config.sequence_bits = 22)
    (hnode : g.node_id ≤ g.bit_config.max_node)
    (ts seqv : Nat) (hts : ts < 2 ^ 42) :
    g.extract_node (g.create_tsid ts seqv) = g.node_id := by
  obtain ⟨hsb, hnb, e1, e2, e3, e4, e5, _, e7⟩ := create_bit_config_inv hbc
  rw [create_tsid_eval g hbc h22 ts seqv hts]
  rw [TsidGenerator.extract_node, e1, e4]
  rw [Nat.shiftRight_eq_div_pow, Nat.and_pow_two_sub_one_eq_mod]
  set nb := g.config.node_bits
  set sb := g.config.sequence_bits
  have hnpos : 0 < 2 ^ nb := Nat.pos_pow_of_pos _ (by norm_num)
  have hspos : 0 < 2 ^ sb := Nat.pos_pow_of_pos _ (by norm_num)
  have hsv : seqv % 2 ^ sb < 2 ^ sb := Nat.mod_lt _ hspos
  have hnode' : g.node_id < 2 ^ nb := by
    rw [e7] at hnode; omega
  rw [Nat.mul_add_div hspos, Nat.div_eq_of_lt hsv, Nat.add_zero,
    Nat.mod_eq_of_lt hnode', Nat.mul_comm ts (2 ^ nb), Nat.mul_add_mod,
    Nat.mod_eq_of_lt hnode']
  apply Nat.mod_eq_of_lt
  have h15 : (2 : Nat) ^ nb ≤ 32768 := by
    have h := Nat.pow_le_pow_right (show 0 < 2 by norm_num) (show nb ≤ 15 by omega)
    simpa using h
  omega

lemma extract_sequence_create (g : TsidGenerator)
    (hbc : g.config.create_bit_config = some g.bit_config)
    (h22 : g.config.node_bits + g.config.sequence_bits = 22)
    (hseq : seqv ≤ g.bit_config.max_sequence)
    (ts : Nat) (hts : ts < 2 ^ 42) :
    g.extract_sequence (g.create_tsid ts seqv) = seqv := by
  obtain ⟨hsb, hnb, e1, e2, e3, e4, e5, e6, _⟩ := create_bit_config_inv hbc
  rw [create_tsid_eval g hbc h22 ts seqv hts]
  rw [TsidGenerator.extract_sequence, e3]
  rw [Nat.and_pow_two_sub_one_eq_mod]
  set sb := g.config.sequence_bits
  have hspos : 0 < 2 ^ sb := Nat.pos_pow_of_pos _ (by norm_num)
  have hseq' : seqv < 2 ^ sb := by rw [e6] at hseq; omega
  rw [Nat.mul_add_mod, Nat.mod_eq_of_lt (Nat.mod_lt _ hspos),
    Nat.mod_eq_of_lt hseq']
  apply Nat.mod_eq_of_lt
  have h15 : (2 : Nat) ^ sb ≤ 32768 := by
    have h := Nat.pow_le_pow_right (show 0 < 2 by norm_num) (show sb ≤ 15 by omega)
    simpa using h
  omega

/-! ### The frozen-clock sequential trace on the default generator -/

lemma stateAfter_zero : stateAfter 0 = some initialState := rfl

lemma stateAfter_succ (n : Nat) :
    stateAfter (n + 1) = (stateAfter n).bind fun s => (traceStep s).map Prod.snd := rfl

lemma tsidOf_succ (n : Nat) :
    tsidOf (n + 1) = (stateAfter n).bind fun s => (traceStep s).map Prod.fst := rfl

lemma frozen_epoch_le :
    genD.config.custom_epoch ≤ frozenNow % 18446744073709551616 := by decide

lemma frozen_ts :
    frozenNow % 18446744073709551616 - genD.config.custom_epoch = 1 := by decide

lemma trace_tick (s : GenState) (h1 : s.last_timestamp = 0) :
    traceStep s = some (genD.create_tsid 1 0, { last_timestamp := 1, sequence := 0 }) := by
  simp only [traceStep, callWith]
  rw [show (65537 : Nat) = 65536 + 1 from rfl, List.replicate_succ]
  rw [generateAux_tick genD frozenNow _ s frozen_epoch_le (by simp [frozen_ts, h1])]
  rw [frozen_ts]

lemma trace_seq (s : GenState) (h1 : s.last_timestamp = 1) (h2 : s.sequence < 4095) :
    traceStep s = some (genD.create_tsid 1 (s.sequence + 1),
      { last_timestamp := 1, sequence := (s.sequence + 1) % 65536 }) := by
  simp only [traceStep, callWith]
  rw [show (65537 : Nat) = 65536 + 1 from rfl, List.replicate_succ]
  rw [generateAux_seq genD frozenNow _ s frozen_epoch_le (by simp [frozen_ts, h1])
    (by simpa [genD, bcD] using h2)]
  rw [h1]

lemma trace_spin (s : GenState) (h1 : s.last_timestamp = 1) (h2 : s.sequence = 4095) :
    traceStep s = some (genD.create_tsid 1 1, { last_timestamp := 1, sequence := 1 }) := by
  have hm : 1 ≤ genD.bit_config.max_sequence := by decide
  have hspin := generateAux_spin genD frozenNow hm frozen_epoch_le 61441 65537 s
    (by omega) (by omega) (by rw [h2]; decide) (by simp [frozen_ts, h1]) (by omega)
  simp only [traceStep, callWith]
  rw [hspin, h1]

lemma stateAfter_eq : ∀ j, j ≤ 4095 → stateAfter (j + 1) =
    some { last_timestamp := 1, sequence := j } := by
  intro j
  induction j with
  | zero =>
    intro _
    rw [stateAfter_succ, stateAfter_zero]
    simp [trace_tick initialState rfl]
  | succ j ih =>
    intro hj
    rw [stateAfter_succ, ih (by omega)]
    have h := trace_seq { last_timestamp := 1, sequence := j } rfl (by simpa using by omega)
    simp [h]
    omega

lemma tsid_2 : tsidOf 2 = some 4198401 := by
  have h0 : stateAfter 1 = some { last_timestamp := 1, sequence := 0 } :=
    stateAfter_eq 0 (by omega)
  rw [show (2 : Nat) = 1 + 1 from rfl, tsidOf_succ, h0]
  have h := trace_seq { last_timestamp := 1, sequence := 0 } rfl (by simp)
  simp [h]
  decide

lemma tsid_4096 : tsidOf 4096 = some 4202495 := by
  have h0 : stateAfter 4095 = some { last_timestamp := 1, sequence := 4094 } :=
    stateAfter_eq 4094 (by omega)
  rw [show (4096 : Nat) = 4095 + 1 from rfl, tsidOf_succ, h0]
  have h := trace_seq { last_timestamp := 1, sequence := 4094 } rfl (by simp)
  simp [h]
  decide

lemma tsid_4097 : tsidOf 4097 = some 4198401 := by
  have h0 : stateAfter 4096 = some { last_timestamp := 1, sequence := 4095 } :=
    stateAfter_eq 4095 (by omega)
  rw [show (4097 : Nat) = 4096 + 1 from rfl, tsidOf_succ, h0]
  have h := trace_spin { last_timestamp := 1, sequence := 4095 } rfl rfl
  rw [Option.some_bind, h, Option.map_some']
  rfl

/-! ### Frame lemmas for the store model -/

lemma writeState_other (st : Store) (g : GenRef) (s : GenState) (c : Nat)
    (h1 : c ≠ g.lastCell) (h2 : c ≠ g.seqCell) :
    writeState st g s c = st c := by
  simp [writeState, h1, h2]

lemma storeAfter_other (st : Store) (g : GenRef) (readings : List Nat) (c : Nat)
    (h1 : c ≠ g.lastCell) (h2 : c ≠ g.seqCell) :
    storeAfter st g readings c = st c := by
  cases hgen : generateAux g.toGen readings (readState st g) with
  | ok t s => rw [storeAfter, hgen]; exact writeState_other st g s c h1 h2
  | panicked => rw [storeAfter, hgen]
  | spinning s => rw [storeAfter, hgen]; exact writeState_other st g s c h1 h2

lemma cloneStore_at (st : Store) (g : GenRef) (fresh : Nat)
    (h1 : g.seqCell < fresh) (h2 : g.lastCell < fresh) :
    cloneStore st g fresh fresh = st g.seqCell ∧
    cloneStore st g fresh (fresh + 1) = st g.lastCell ∧
    cloneStore st g fresh g.seqCell = st g.seqCell ∧
    cloneStore st g fresh g.lastCell = st g.lastCell := by
  refine ⟨?_, ?_, ?_, ?_⟩ <;> simp [cloneStore] <;> omega

/-! ## The claims -/

/-- C1: the claim that sequential `generate()` calls on one instance always
return strictly increasing (hence pairwise distinct) identifiers is FALSE on
the code: with the clock frozen one millisecond after the epoch, the 2nd and
the 4097th call on a fresh default generator with node id 1 both return
4198401 — after the 4096-identifier sequence space of the tick is exhausted
the `u16` sequence atomic wraps past 65535 and re-issues sequence 1. -/
theorem claim_c1_duplicate_identifier :
    tsidOf 2 = some 4198401 ∧ tsidOf 4097 = some 4198401 :=
  ⟨tsid_2, tsid_4097⟩

/-- C2: packing then extracting returns the original triple for every
derivable layout with `node_bits + sequence_bits = 22` and in-range fields;
but the claim's range `node_bits` 1-20 is too generous: already deriving the
bit layout for `node_bits = 1` (accepted by the builder) panics, because
`(1u16 << 21)` overflows the 16-bit shift. -/
theorem claim_c2_round_trip :
    (∀ (g : TsidGenerator) (ts seqv : Nat),
      g.config.create_bit_config = some g.bit_config →
      g.config.node_bits + g.config.sequence_bits = 22 →
      ts < 2 ^ 42 →
      g.node_id ≤ g.bit_config.max_node →
      seqv ≤ g.bit_config.max_sequence →
      g.extract_from_tsid (g.create_tsid ts seqv) = (ts, g.node_id, seqv)) ∧
    TsidConfigBuilder.node_bits TsidConfig.default 1 =
      some { node_bits := 1, sequence_bits := 21, custom_epoch := DEFAULT_CUSTOM_EPOCH } ∧
    TsidConfig.create_bit_config
      { node_bits := 1, sequence_bits := 21, custom_epoch := DEFAULT_CUSTOM_EPOCH } = none := by
  refine ⟨?_, by decide, by decide⟩
  intro g ts seqv hbc h22 hts hnode hseq
  rw [TsidGenerator.extract_from_tsid,
    extract_timestamp_create g hbc h22 ts seqv hts,
    extract_node_create g hbc h22 hnode ts seqv hts,
    extract_sequence_create g hbc h22 hseq ts hts]

/-- C2 witness: the round trip at the default generator with node id 1,
timestamp 123 and sequence 45. -/
theorem claim_c2_round_trip_witness :
    genD.extract_from_tsid (genD.create_tsid 123 45) = (123, 1, 45) :=
  claim_c2_round_trip.1 genD 123 45 (by decide) (by decide) (by decide)
    (by decide) (by decide)

/-- C3: with the default 10 node bits the derived layout has exactly the
claimed masks and shifts and the generator reports `max_node_id() = 1023`
and `max_sequence() = 4095`; but the claim's range `node_bits` 1-20 fails:
for `node_bits = 1` (accepted by the builder) the mask computation
`(1u16 << 21)` overflows the `u16` shift and panics, and no `u16` mask could
equal `2^21 - 1` anyway. -/
theorem claim_c3_bit_layout :
    cfgD.create_bit_config =
      some { node_shift := 12, timestamp_shift := 22, sequence_mask := 4095,
             node_mask := 1023, timestamp_mask := 4398046511103,
             max_sequence := 4095, max_node := 1023 } ∧
    genD.max_node_id = 1023 ∧ genD.max_sequence = 4095 ∧
    TsidConfigBuilder.node_bits TsidConfig.default 1 =
      some { node_bits := 1, sequence_bits := 21, custom_epoch := DEFAULT_CUSTOM_EPOCH } ∧
    TsidConfig.create_bit_config
      { node_bits := 1, sequence_bits := 21, custom_epoch := DEFAULT_CUSTOM_EPOCH } = none := by
  refine ⟨by decide, by decide, by decide, by decide, by decide⟩

/-- C4: a `generate()` call whose observed timestamp does not exceed the
stored `last_timestamp` returns an identifier whose timestamp field is the
stored `last_timestamp`, never the (possibly backward-moved) clock value. -/
theorem claim_c4_backward_clock_pins_last (g : TsidGenerator) (now : Nat)
    (s : GenState)
    (hbc : g.config.create_bit_config = some g.bit_config)
    (h22 : g.config.node_bits + g.config.sequence_bits = 22)
    (hm : 1 ≤ g.bit_config.max_sequence)
    (hs : s.sequence ≤ 65535)
    (he : g.config.custom_epoch ≤ now % 18446744073709551616)
    (ht : now % 18446744073709551616 - g.config.custom_epoch ≤ s.last_timestamp)
    (hlast : s.last_timestamp < 2 ^ 42) :
    ∃ t s', callWith g now s = .ok t s' ∧
      g.extract_timestamp t = s.last_timestamp := by
  rcases Nat.lt_or_ge s.sequence g.bit_config.max_sequence with hseq | hseq
  · refine ⟨g.create_tsid s.last_timestamp (s.sequence + 1),
      { last_timestamp := s.last_timestamp, sequence := (s.sequence + 1) % 65536 },
      ?_, ?_⟩
    · rw [callWith, show (65537 : Nat) = 65536 + 1 from rfl, List.replicate_succ]
      exact generateAux_seq g now _ s he ht hseq
    · exact extract_timestamp_create g hbc h22 s.last_timestamp (s.sequence + 1) hlast
  · refine ⟨g.create_tsid s.last_timestamp 1,
      { last_timestamp := s.last_timestamp, sequence := 1 }, ?_, ?_⟩
    · rw [callWith]
      exact generateAux_spin g now hm he (65536 - s.sequence) 65537 s (by omega) hs
        hseq ht (by omega)
    · exact extract_timestamp_create g hbc h22 s.last_timestamp 1 hlast

/-- C4 witness: the default generator in state `last_timestamp = 5`,
`sequence = 0` observing a clock 3 ms after the epoch (3 < 5) returns an
identifier whose timestamp field is 5. -/
theorem claim_c4_backward_clock_witness :
    ∃ t s', callWith genD (DEFAULT_CUSTOM_EPOCH + 3)
        { last_timestamp := 5, sequence := 0 } = .ok t s' ∧
      genD.extract_timestamp t = 5 :=
  claim_c4_backward_clock_pins_last genD (DEFAULT_CUSTOM_EPOCH + 3)
    { last_timestamp := 5, sequence := 0 } (by decide) (by decide) (by decide)
    (by decide) (by decide) (by decide) (by decide)

/-- C5 counterexample: `generate()` does NOT return an identifier for every
wall-clock behavior — a reading earlier than the custom epoch (here 0, i.e.
the Unix epoch, before the default 2024 epoch) makes the `u64` subtraction in
`current_time` underflow, a fatal error, so the call panics instead of
returning a value. -/
theorem claim_c5_pre_epoch_reading_panics :
    generateAux genD [0] initialState = .panicked := by decide

/-- C5 as amended: for every generator built through the builder and
`with_config`, every start state with an in-range (`u16`) sequence value and
every trace of at least 65537 wall-clock readings that never fall below the
custom epoch (after `u64` truncation), the `generate()` loop terminates with
an identifier.  (The spin on an exhausted tick needs at most 65537 iterations
because the `u16` sequence counter wraps.) -/
theorem claim_c5_generate_terminates (base cfg : TsidConfig)
    (bits nid : Nat) (g : TsidGenerator) (readings : List Nat) (s : GenState)
    (hb : TsidConfigBuilder.node_bits base bits = some cfg)
    (hg : TsidGenerator.with_config nid cfg = some g)
    (hr : ∀ r ∈ readings, g.config.custom_epoch ≤ r % 18446744073709551616)
    (hs : s.sequence ≤ 65535)
    (hlen : 65537 ≤ readings.length) :
    ∃ t s', generateAux g readings s = .ok t s' := by
  obtain ⟨_, hcfg, hbc, _⟩ := with_config_inv hg
  have hm : 1 ≤ g.bit_config.max_sequence := builder_max_sequence_pos hb hbc
  refine generateAux_returns g hm readings s hr hs ?_
  rcases Nat.lt_or_ge s.sequence g.bit_config.max_sequence with h | h
  · rw [if_pos h]; omega
  · rw [if_neg (Nat.not_lt.mpr h)]; omega

/-- C5 witness: the default generator from a fresh state with 65537 readings
one millisecond after the epoch terminates with an identifier. -/
theorem claim_c5_generate_terminates_witness :
    ∃ t s', generateAux genD (List.replicate 65537 frozenNow) initialState =
      .ok t s' :=
  claim_c5_generate_terminates TsidConfig.default cfgD 10 1 genD
    (List.replicate 65537 frozenNow) initialState (by decide) (by decide)
    (fun r hr => by rw [List.eq_of_mem_replicate hr]; exact frozen_epoch_le)
    (by decide) (Nat.le_of_eq (List.length_replicate 65537 frozenNow).symm)

/-- C6: the builder's `node_bits` setter panics exactly outside 1-20 and the
generator constructor panics for `node_id` above `max_node` (1024 fails,
1023 succeeds, under the default configuration); but construction does NOT
succeed in all remaining cases, contrary to the claim: with the
builder-accepted `node_bits = 20` even the legal `node_id = 0` panics,
because deriving the layout computes `(1u16 << 20)`, an overflowing `u16`
shift. -/
theorem claim_c6_construction_validation :
    TsidConfigBuilder.node_bits TsidConfig.default 0 = none ∧
    TsidConfigBuilder.node_bits TsidConfig.default 21 = none ∧
    TsidConfigBuilder.node_bits TsidConfig.default 20 =
      some { node_bits := 20, sequence_bits := 2, custom_epoch := DEFAULT_CUSTOM_EPOCH } ∧
    TsidGenerator.new 1024 = none ∧
    TsidGenerator.new 1023 =
      some { node_id := 1023, config := cfgD, bit_config := bcD } ∧
    TsidGenerator.with_config 0
      { node_bits := 20, sequence_bits := 2, custom_epoch := DEFAULT_CUSTOM_EPOCH } = none := by
  refine ⟨by decide, by decide, by decide, by decide, by decide, by decide⟩

/-- C7: whenever the wall clock (as `u64` milliseconds) reads strictly less
than `custom_epoch`, the subtraction in `current_time` underflows — a fatal
error (panic under the overflow-checked profile) — and the surrounding
`generate()` call panics rather than wrapping modulo 2^64. -/
theorem claim_c7_pre_epoch_is_fatal (g : TsidGenerator) (now : Nat)
    (rest : List Nat) (s : GenState)
    (h : now % 18446744073709551616 < g.config.custom_epoch) :
    current_time g.config now = none ∧
    generateAux g (now :: rest) s = .panicked :=
  ⟨current_time_eq_none h, generateAux_panic g now rest s h⟩

/-- C7 witness: the default generator observing 5 ms after the Unix epoch
(before the 2024 custom epoch) panics. -/
theorem claim_c7_pre_epoch_is_fatal_witness :
    current_time genD.config 5 = none ∧
    generateAux genD (5 :: [7]) { last_timestamp := 9, sequence := 2 } =
      .panicked :=
  claim_c7_pre_epoch_is_fatal genD 5 [7]
    { last_timestamp := 9, sequence := 2 } (by decide)

/-- C8: the claim that consecutive same-tick calls carry consecutive sequence
fields is FALSE on the code: in the frozen-clock trace on the fresh default
generator, calls 4096 and 4097 both carry timestamp field 1 (same tick), but
their sequence fields are 4095 and then 1 — after exhausting the tick the
wrapped `u16` counter restarts the sequence instead of being one greater. -/
theorem claim_c8_same_tick_sequence_wraps :
    tsidOf 4096 = some 4202495 ∧ tsidOf 4097 = some 4198401 ∧
    genD.extract_timestamp 4202495 = genD.extract_timestamp 4198401 ∧
    genD.extract_sequence 4202495 = 4095 ∧
    genD.extract_sequence 4198401 = 1 :=
  ⟨tsid_4096, tsid_4097, by decide, by decide, by decide⟩

/-- C9: extraction is total — every 64-bit value decomposes into the three
fields with no failure, `extract_from_tsid` agrees with the three per-field
extractors, and the extracted node, sequence and timestamp are bounded by
`max_node_id()`, `max_sequence()` and `2^42 - 1` respectively (hence in
particular for every identifier the generator produces). -/
theorem claim_c9_extract_total_and_bounded (g : TsidGenerator) (tsid : Nat)
    (hbc : g.config.create_bit_config = some g.bit_config) :
    g.extract_from_tsid tsid =
      (g.extract_timestamp tsid, g.extract_node tsid, g.extract_sequence tsid) ∧
    g.extract_node tsid ≤ g.max_node_id ∧
    g.extract_sequence tsid ≤ g.max_sequence ∧
    g.extract_timestamp tsid ≤ 2 ^ 42 - 1 := by
  obtain ⟨_, _, _, _, e3, e4, e5, e6, e7⟩ := create_bit_config_inv hbc
  refine ⟨rfl, ?_, ?_, ?_⟩
  · rw [TsidGenerator.extract_node, TsidGenerator.max_node_id]
    calc ((tsid >>> g.bit_config.node_shift) &&& g.bit_config.node_mask) % 65536
        ≤ (tsid >>> g.bit_config.node_shift) &&& g.bit_config.node_mask :=
          Nat.mod_le _ _
      _ ≤ g.bit_config.node_mask := Nat.and_le_right
      _ = g.bit_config.max_node := by rw [e4, e7]
  · rw [TsidGenerator.extract_sequence, TsidGenerator.max_sequence]
    calc (tsid &&& g.bit_config.sequence_mask) % 65536
        ≤ tsid &&& g.bit_config.sequence_mask := Nat.mod_le _ _
      _ ≤ g.bit_config.sequence_mask := Nat.and_le_right
      _ = g.bit_config.max_sequence := by rw [e3, e6]
  · rw [TsidGenerator.extract_timestamp]
    calc (tsid >>> g.bit_config.timestamp_shift) &&& g.bit_config.timestamp_mask
        ≤ g.bit_config.timestamp_mask := Nat.and_le_right
      _ = 2 ^ 42 - 1 := e5

/-- C9 witness: extraction of an arbitrary 64-bit value (123456789, never
produced by this generator) on the default generator. -/
theorem claim_c9_extract_witness :
    genD.extract_from_tsid 123456789 =
      (genD.extract_timestamp 123456789, genD.extract_node 123456789,
        genD.extract_sequence 123456789) ∧
    genD.extract_node 123456789 ≤ genD.max_node_id ∧
    genD.extract_sequence 123456789 ≤ genD.max_sequence ∧
    genD.extract_timestamp 123456789 ≤ 2 ^ 42 - 1 :=
  claim_c9_extract_total_and_bounded genD 123456789 (by decide)

/-- C10: cloning copies `node_id`, the configuration and the current values
of the two atomics into FRESH cells, and the states are not shared: a
`generate()` call on the clone leaves the original's `last_timestamp` and
`sequence` cells unchanged, and a call on the original leaves the clone's
cells unchanged. -/
theorem claim_c10_clone_independent (st : Store) (g : GenRef) (fresh : Nat)
    (readings : List Nat)
    (h1 : g.seqCell < fresh) (h2 : g.lastCell < fresh) :
    ((cloneGen g fresh).node_id = g.node_id ∧
     (cloneGen g fresh).config = g.config ∧
     (cloneGen g fresh).bit_config = g.bit_config ∧
     cloneStore st g fresh (cloneGen g fresh).lastCell = st g.lastCell ∧
     cloneStore st g fresh (cloneGen g fresh).seqCell = st g.seqCell ∧
     cloneStore st g fresh g.lastCell = st g.lastCell ∧
     cloneStore st g fresh g.seqCell = st g.seqCell) ∧
    (storeAfter (cloneStore st g fresh) (cloneGen g fresh) readings g.lastCell =
       cloneStore st g fresh g.lastCell ∧
     storeAfter (cloneStore st g fresh) (cloneGen g fresh) readings g.seqCell =
       cloneStore st g fresh g.seqCell) ∧
    (storeAfter (cloneStore st g fresh) g readings (cloneGen g fresh).lastCell =
       cloneStore st g fresh (cloneGen g fresh).lastCell ∧
     storeAfter (cloneStore st g fresh) g readings (cloneGen g fresh).seqCell =
       cloneStore st g fresh (cloneGen g fresh).seqCell) := by
  obtain ⟨c1, c2, c3, c4⟩ := cloneStore_at st g fresh h1 h2
  refine ⟨⟨rfl, rfl, rfl, c2, c1, c4, c3⟩, ⟨?_, ?_⟩, ⟨?_, ?_⟩⟩
  · exact storeAfter_other _ _ _ _ (by simp [cloneGen]; omega) (by simp [cloneGen]; omega)
  · exact storeAfter_other _ _ _ _ (by simp [cloneGen]; omega) (by simp [cloneGen]; omega)
  · exact storeAfter_other _ _ _ _ (by simp [cloneGen]; omega) (by simp [cloneGen]; omega)
  · exact storeAfter_other _ _ _ _ (by simp [cloneGen]; omega) (by simp [cloneGen]; omega)

/-- C10 witness: the concrete clone of `gR0` (cells 0 and 1) into cells 2
and 3 over the store `st0`, with one `generate()` call on either side using
one reading. -/
theorem claim_c10_clone_independent_witness :
    ((cloneGen gR0 2).node_id = gR0.node_id ∧
     (cloneGen gR0 2).config = gR0.config ∧
     (cloneGen gR0 2).bit_config = gR0.bit_config ∧
     cloneStore st0 gR0 2 (cloneGen gR0 2).lastCell = st0 gR0.lastCell ∧
     cloneStore st0 gR0 2 (cloneGen gR0 2).seqCell = st0 gR0.seqCell ∧
     cloneStore st0 gR0 2 gR0.lastCell = st0 gR0.lastCell ∧
     cloneStore st0 gR0 2 gR0.seqCell = st0 gR0.seqCell) ∧
    (storeAfter (cloneStore st0 gR0 2) (cloneGen gR0 2) [frozenNow] gR0.lastCell =
       cloneStore st0 gR0 2 gR0.lastCell ∧
     storeAfter (cloneStore st0 gR0 2) (cloneGen gR0 2) [frozenNow] gR0.seqCell =
       cloneStore st0 gR0 2 gR0.seqCell) ∧
    (storeAfter (cloneStore st0 gR0 2) gR0 [frozenNow] (cloneGen gR0 2).lastCell =
       cloneStore st0 gR0 2 (cloneGen gR0 2).lastCell ∧
     storeAfter (cloneStore st0 gR0 2) gR0 [frozenNow] (cloneGen gR0 2).seqCell =
       cloneStore st0 gR0 2 (cloneGen gR0 2).seqCell) :=
  claim_c10_clone_independent st0 gR0 2 [frozenNow] (by decide) (by decide)

end Snowid
